import Mathlib

/-!
Shallow embedding of the PCF8574 I2C IO-expander driver
(src/PCF8574.h and src/PCF8574.cpp).

Bytes are `Nat` values with `% 256` applied wherever the C code
truncates to `uint8_t` (parameter passing and assignments to
`uint8_t` members).  The external I2C bus is injected per
transaction: a write transaction takes the status value returned by
`endTransmission`, a read transaction takes the count returned by
`requestFrom` together with the byte the bus makes available.  The
driver state mirrors the member variables of the `PCF8574` class in
src/PCF8574.cpp (the multi-interface variant with `_interfaceIndex`).
-/

def PCF8574_OK : Nat := 0x00

def PCF8574_PIN_ERROR : Nat := 0x81

def PCF8574_I2C_ERROR : Nat := 0x82

/-- Modelled from the spec: the constant `PCF8574_INTERFACE_NOT_AVAILABLE`
is defined in an interface-enumeration header that is not under src/;
the spec only requires an "interface not available" error code distinct
from OK.  Its exact numeric value is immaterial to every claim. -/
def PCF8574_INTERFACE_NOT_AVAILABLE : Nat := 0x83

/-- Modelled from the spec: the constant `PCF8574_INTERFACE_NO_OF_INTERFACES`
is defined in an interface-enumeration header that is not under src/;
the spec treats bus selection as an injected handle and only the validity
of the index (index < count) matters.  Six Wire interfaces (Wire..Wire5)
appear in src/PCF8574.cpp. -/
def PCF8574_INTERFACE_NO_OF_INTERFACES : Nat := 6

/-- Driver state: the member variables of class PCF8574
(src/PCF8574.cpp, multi-interface variant). -/
structure PCF8574 where
  _interfaceIndex : Nat
  _address : Nat
  _dataIn : Nat
  _dataOut : Nat
  _buttonMask : Nat
  _error : Nat
deriving Repr, DecidableEq

/-- Constructor `PCF8574::PCF8574(uint8_t interfaceIndex, const uint8_t deviceAddress)`
(src/PCF8574.cpp:47-61). -/
def PCF8574.construct (interfaceIndex deviceAddress : Nat) : PCF8574 :=
  { _interfaceIndex := interfaceIndex % 256
    _address := deviceAddress % 256
    _dataIn := 0
    _dataOut := 0xFF
    _buttonMask := 0xFF
    _error :=
      if interfaceIndex % 256 ≥ PCF8574_INTERFACE_NO_OF_INTERFACES then
        PCF8574_INTERFACE_NOT_AVAILABLE
      else PCF8574_OK }

/-- Method `void PCF8574::write8(const uint8_t value)` (src/PCF8574.cpp:248-304).
`endStatus` is the status returned by the bus `endTransmission` for this
transaction (a `uint8_t`). -/
def PCF8574.write8 (st : PCF8574) (value : Nat) (endStatus : Nat) : PCF8574 :=
  if st._interfaceIndex < PCF8574_INTERFACE_NO_OF_INTERFACES then
    { st with _dataOut := value % 256, _error := endStatus % 256 }
  else
    { st with _error := PCF8574_INTERFACE_NOT_AVAILABLE }

/-- Method `uint8_t PCF8574::read8()` (src/PCF8574.cpp:160-246).
`reqCount` is the count returned by the bus `requestFrom` (a `uint8_t`),
`busByte` the byte available from the bus read. -/
def PCF8574.read8 (st : PCF8574) (reqCount : Nat) (busByte : Nat) : PCF8574 × Nat :=
  if st._interfaceIndex < PCF8574_INTERFACE_NO_OF_INTERFACES then
    if reqCount % 256 ≠ 1 then
      ({ st with _error := PCF8574_I2C_ERROR }, st._dataIn)
    else
      let d := busByte % 256
      ({ st with _dataIn := d }, d)
  else
    ({ st with _error := PCF8574_I2C_ERROR }, st._dataIn)

/-- Method `uint8_t PCF8574::read(const uint8_t pin)` (src/PCF8574.cpp:306-315). -/
def PCF8574.read (st : PCF8574) (pin : Nat) (reqCount busByte : Nat) : PCF8574 × Nat :=
  let p := pin % 256
  if p > 7 then
    ({ st with _error := PCF8574_PIN_ERROR }, 0)
  else
    let st1 := (st.read8 reqCount busByte).1
    (st1, if st1._dataIn &&& (1 <<< p) > 0 then 1 else 0)

/-- Method `void PCF8574::write(const uint8_t pin, const uint8_t value)`
(src/PCF8574.cpp:317-333).  `LOW` is 0; `~(1 << pin)` is 32-bit int
complement of the pin bit. -/
def PCF8574.write (st : PCF8574) (pin value : Nat) (endStatus : Nat) : PCF8574 :=
  let p := pin % 256
  let v := value % 256
  if p > 7 then { st with _error := PCF8574_PIN_ERROR }
  else
    let d := (if v = 0 then st._dataOut &&& ((2 ^ 32 - 1) ^^^ (1 <<< p))
              else st._dataOut ||| (1 <<< p)) % 256
    PCF8574.write8 { st with _dataOut := d } d endStatus

/-- Method `void PCF8574::toggleMask(const uint8_t mask)` (src/PCF8574.cpp:345-349). -/
def PCF8574.toggleMask (st : PCF8574) (mask : Nat) (endStatus : Nat) : PCF8574 :=
  let d := (st._dataOut ^^^ (mask % 256)) % 256
  PCF8574.write8 { st with _dataOut := d } d endStatus

/-- Method `void PCF8574::toggle(const uint8_t pin)` (src/PCF8574.cpp:335-343). -/
def PCF8574.toggle (st : PCF8574) (pin : Nat) (endStatus : Nat) : PCF8574 :=
  let p := pin % 256
  if p > 7 then { st with _error := PCF8574_PIN_ERROR }
  else st.toggleMask (1 <<< p) endStatus

/-- Method `void PCF8574::shiftRight(const uint8_t n)` (src/PCF8574.cpp:351-357). -/
def PCF8574.shiftRight (st : PCF8574) (n : Nat) (endStatus : Nat) : PCF8574 :=
  let k := n % 256
  if k = 0 ∨ st._dataOut = 0 then st
  else
    let d1 := if k > 7 then 0 else st._dataOut
    let d2 := if d1 ≠ 0 then (d1 >>> k) % 256 else d1
    PCF8574.write8 { st with _dataOut := d2 } d2 endStatus

/-- Method `void PCF8574::shiftLeft(const uint8_t n)` (src/PCF8574.cpp:359-365). -/
def PCF8574.shiftLeft (st : PCF8574) (n : Nat) (endStatus : Nat) : PCF8574 :=
  let k := n % 256
  if k = 0 ∨ st._dataOut = 0 then st
  else
    let d1 := if k > 7 then 0 else st._dataOut
    let d2 := if d1 ≠ 0 then (d1 <<< k) % 256 else d1
    PCF8574.write8 { st with _dataOut := d2 } d2 endStatus

/-- Method `int PCF8574::lastError()` (src/PCF8574.cpp:367-372):
returns the sticky error and clears it to OK. -/
def PCF8574.lastError (st : PCF8574) : PCF8574 × Nat :=
  ({ st with _error := PCF8574_OK }, st._error)

/-- Rotate-right kernel on a byte, the expression
`(_dataOut >> r) | (_dataOut << (8 - r))` assigned to the `uint8_t`
member in src/PCF8574.cpp:379. -/
def rotr8 (d r : Nat) : Nat :=
  ((d >>> r) ||| (d <<< (8 - r))) % 256

/-- Method `void PCF8574::rotateRight(const uint8_t n)` (src/PCF8574.cpp:374-381). -/
def PCF8574.rotateRight (st : PCF8574) (n : Nat) (endStatus : Nat) : PCF8574 :=
  let k := n % 256
  if k % 8 = 0 then st
  else
    let d := rotr8 st._dataOut (k &&& 7)
    PCF8574.write8 { st with _dataOut := d } d endStatus

/-- Method `void PCF8574::rotateLeft(const uint8_t n)` (src/PCF8574.cpp:383-386). -/
def PCF8574.rotateLeft (st : PCF8574) (n : Nat) (endStatus : Nat) : PCF8574 :=
  st.rotateRight (8 - (n % 256 &&& 7)) endStatus

/-- Bit-reversal kernel of `void PCF8574::reverse()` (src/PCF8574.cpp:388-395):
swap adjacent bits, then adjacent pairs, then nibbles. -/
def reverseByte (x : Nat) : Nat :=
  let x1 := (((x &&& 0xaa) >>> 1) ||| ((x &&& 0x55) <<< 1)) % 256
  let x2 := (((x1 &&& 0xcc) >>> 2) ||| ((x1 &&& 0x33) <<< 2)) % 256
  ((x2 >>> 4) ||| (x2 <<< 4)) % 256

/-- Method `void PCF8574::reverse()` (src/PCF8574.cpp:388-395). -/
def PCF8574.reverse (st : PCF8574) (endStatus : Nat) : PCF8574 :=
  st.write8 (reverseByte st._dataOut) endStatus

/-- Method `uint8_t PCF8574::readButton8(const uint8_t mask)`
(src/PCF8574.cpp:398-406): force masked lines high, read, restore shadow. -/
def PCF8574.readButton8 (st : PCF8574) (mask : Nat)
    (e1 reqCount busByte e2 : Nat) : PCF8574 × Nat :=
  let temp := st._dataOut
  let st1 := st.write8 ((mask % 256) ||| st._dataOut) e1
  let st2 := (st1.read8 reqCount busByte).1
  let st3 := st2.write8 temp e2
  (st3, st3._dataIn)

/-- Method `uint8_t PCF8574::readButton8()` (src/PCF8574.h:124):
delegates to `readButton8(_buttonMask)`. -/
def PCF8574.readButton8Default (st : PCF8574)
    (e1 reqCount busByte e2 : Nat) : PCF8574 × Nat :=
  st.readButton8 st._buttonMask e1 reqCount busByte e2

/-- Method `uint8_t PCF8574::readButton(const uint8_t pin)`
(src/PCF8574.cpp:409-423).  `HIGH` is 1. -/
def PCF8574.readButton (st : PCF8574) (pin : Nat)
    (e1 reqCount busByte e2 : Nat) : PCF8574 × Nat :=
  let p := pin % 256
  if p > 7 then ({ st with _error := PCF8574_PIN_ERROR }, 0)
  else
    let temp := st._dataOut
    let st1 := st.write p 1 e1
    let pr := st1.read p reqCount busByte
    let st3 := pr.1.write8 temp e2
    (st3, pr.2)

/-- Accessor `uint8_t PCF8574::getAddress() const` (src/PCF8574.h:72). -/
def PCF8574.getAddress (st : PCF8574) : Nat := st._address

/-- Accessor `uint8_t PCF8574::value() const` (src/PCF8574.h:95). -/
def PCF8574.value (st : PCF8574) : Nat := st._dataIn

/-- Accessor `uint8_t PCF8574::valueOut() const` (src/PCF8574.h:117). -/
def PCF8574.valueOut (st : PCF8574) : Nat := st._dataOut

/-- Accessor `uint8_t PCF8574::getButtonMask()` (src/PCF8574.h:154). -/
def PCF8574.getButtonMask (st : PCF8574) : Nat := st._buttonMask

/-- Method `void PCF8574::setButtonMask(const uint8_t mask)` (src/PCF8574.h:147). -/
def PCF8574.setButtonMask (st : PCF8574) (mask : Nat) : PCF8574 :=
  { st with _buttonMask := mask % 256 }

/-- Method `void PCF8574::selectNone()` (src/PCF8574.h:229): write8(0x00). -/
def PCF8574.selectNone (st : PCF8574) (endStatus : Nat) : PCF8574 :=
  st.write8 0x00 endStatus

/-- Method `void PCF8574::selectAll()` (src/PCF8574.h:235): write8(0xFF). -/
def PCF8574.selectAll (st : PCF8574) (endStatus : Nat) : PCF8574 :=
  st.write8 0xFF endStatus

/-- Method `void PCF8574::begin(uint8_t val)` (src/PCF8574.cpp:110-153):
the void multi-interface variant; bus initialisation (`Wire.begin()`)
has no effect on the driver state. -/
def PCF8574.beginVoid (st : PCF8574) (val : Nat) (endStatus : Nat) : PCF8574 :=
  if st._interfaceIndex < PCF8574_INTERFACE_NO_OF_INTERFACES then
    st.write8 val endStatus
  else
    { st with _error := PCF8574_INTERFACE_NOT_AVAILABLE }

/-- Modelled from the spec: the body of `bool PCF8574::begin(uint8_t value)`
declared at src/PCF8574.h:46 is not under src/ (src/PCF8574.cpp contains
only the older void variant `beginVoid`).  Per the spec, `begin` first
probes the device with a zero-byte transaction; on probe failure it
returns false and attempts no write; on probe success it performs a full
`write8` of the initial value and returns true.  `probeOk` is the
injected outcome of the probe transaction. -/
def PCF8574.begin (st : PCF8574) (value : Nat) (probeOk : Bool)
    (endStatus : Nat) : PCF8574 × Bool :=
  if probeOk then (st.write8 value endStatus, true) else (st, false)

/-- Modelled from the spec: the body of `bool PCF8574::isConnected()`
declared at src/PCF8574.h:54 is not under src/.  Per the spec it is a
probe-only check (zero-length transaction) with no side effect on the
driver state. -/
def PCF8574.isConnected (st : PCF8574) (probeOk : Bool) : PCF8574 × Bool :=
  (st, probeOk)

/-- Modelled from the spec: the body of `bool PCF8574::setAddress(const uint8_t)`
declared at src/PCF8574.h:64 is not under src/.  Per the spec it
overwrites the stored address and re-probes, returning the probe result. -/
def PCF8574.setAddress (st : PCF8574) (deviceAddress : Nat)
    (probeOk : Bool) : PCF8574 × Bool :=
  ({ st with _address := deviceAddress % 256 }, probeOk)

/-- Modelled from the spec: the body of `void PCF8574::select(const uint8_t pin)`
declared at src/PCF8574.h:215 is not under src/.  Per the spec it writes
a byte with exactly bit `pin` set if pin < 8, else all bits clear. -/
def PCF8574.select (st : PCF8574) (pin : Nat) (endStatus : Nat) : PCF8574 :=
  let p := pin % 256
  st.write8 (if p < 8 then 1 <<< p else 0) endStatus

/-- Modelled from the spec: the body of `void PCF8574::selectN(const uint8_t pin)`
declared at src/PCF8574.h:223 is not under src/.  Per the spec it writes
a byte with bits 0..pin set, that is `(2 << pin) - 1`, if pin < 8, else
all bits set. -/
def PCF8574.selectN (st : PCF8574) (pin : Nat) (endStatus : Nat) : PCF8574 :=
  let p := pin % 256
  st.write8 (if p < 8 then (2 <<< p) - 1 else 0xFF) endStatus

/-! Helper lemmas about the two bus primitives. -/

lemma PCF8574.write8_buttonMask (st : PCF8574) (v e : Nat) :
    (st.write8 v e)._buttonMask = st._buttonMask := by
  unfold PCF8574.write8; split <;> rfl

lemma PCF8574.write8_dataIn (st : PCF8574) (v e : Nat) :
    (st.write8 v e)._dataIn = st._dataIn := by
  unfold PCF8574.write8; split <;> rfl

lemma PCF8574.write8_interfaceIndex (st : PCF8574) (v e : Nat) :
    (st.write8 v e)._interfaceIndex = st._interfaceIndex := by
  unfold PCF8574.write8; split <;> rfl

lemma PCF8574.write8_dataOut_valid (st : PCF8574) (v e : Nat)
    (h : st._interfaceIndex < PCF8574_INTERFACE_NO_OF_INTERFACES) :
    (st.write8 v e)._dataOut = v % 256 := by
  unfold PCF8574.write8; rw [if_pos h]

lemma PCF8574.write8_dataOut_invalid (st : PCF8574) (v e : Nat)
    (h : ¬ st._interfaceIndex < PCF8574_INTERFACE_NO_OF_INTERFACES) :
    (st.write8 v e)._dataOut = st._dataOut := by
  unfold PCF8574.write8; rw [if_neg h]

lemma PCF8574.write8_preassigned_dataOut (st : PCF8574) (x e : Nat) (hx : x < 256) :
    (PCF8574.write8 { st with _dataOut := x } x e)._dataOut = x := by
  unfold PCF8574.write8; split <;> simp [Nat.mod_eq_of_lt hx]

lemma PCF8574.read8_buttonMask (st : PCF8574) (c b : Nat) :
    ((st.read8 c b).1)._buttonMask = st._buttonMask := by
  unfold PCF8574.read8; split <;> [skip; rfl]; split <;> rfl

lemma PCF8574.read8_dataOut (st : PCF8574) (c b : Nat) :
    ((st.read8 c b).1)._dataOut = st._dataOut := by
  unfold PCF8574.read8; split <;> [skip; rfl]; split <;> rfl

lemma PCF8574.read8_interfaceIndex (st : PCF8574) (c b : Nat) :
    ((st.read8 c b).1)._interfaceIndex = st._interfaceIndex := by
  unfold PCF8574.read8; split <;> [skip; rfl]; split <;> rfl

/-- C1 is refuted at a concrete input: a driver constructed with the
invalid interface selector 6 does not update its output shadow on
`write8 0`; the shadow keeps its prior value 0xFF instead of the
attempted value 0. -/
theorem C1_counterexample :
    ((PCF8574.construct 6 0x20).write8 0 0)._dataOut = 0xFF ∧ (0xFF : Nat) ≠ 0 := by
  constructor
  · decide
  · decide

/-- C1 (amended): for every driver state with a valid interface selector,
`write8 value` updates the output shadow to `value` for every transport
outcome, so even a failed write leaves the shadow holding the attempted
value, and the transport status is stored in the error member; for a
state with an invalid interface selector the shadow keeps its prior
value and the error member is set to the interface-not-available code. -/
theorem C1_write8_shadow (st : PCF8574) (value endStatus : Nat)
    (hv : value < 256) (he : endStatus < 256) :
    (st._interfaceIndex < PCF8574_INTERFACE_NO_OF_INTERFACES →
      (st.write8 value endStatus)._dataOut = value ∧
      (st.write8 value endStatus)._error = endStatus) ∧
    (PCF8574_INTERFACE_NO_OF_INTERFACES ≤ st._interfaceIndex →
      (st.write8 value endStatus)._dataOut = st._dataOut ∧
      (st.write8 value endStatus)._error = PCF8574_INTERFACE_NOT_AVAILABLE) := by
  unfold PCF8574.write8
  constructor
  · intro h
    rw [if_pos h]
    exact ⟨Nat.mod_eq_of_lt hv, Nat.mod_eq_of_lt he⟩
  · intro h
    rw [if_neg (by omega)]
    exact ⟨rfl, rfl⟩

theorem C1_write8_witness :
    ((PCF8574.construct 0 0x20).write8 0x12 3)._dataOut = 0x12 ∧
    ((PCF8574.construct 0 0x20).write8 0x12 3)._error = 3 :=
  (C1_write8_shadow (PCF8574.construct 0 0x20) 0x12 3 (by decide) (by decide)).1
    (by decide)

/-- C2: `begin(initialValue)` probes the device and returns
success/failure as a bool; on probe failure it returns false and
attempts no write (the driver state is unchanged); on probe success it
performs a full byte write of the initial value via `write8` and
returns true. -/
theorem C2_begin_probe (st : PCF8574) (value : Nat) (probeOk : Bool) (endStatus : Nat) :
    (probeOk = false → st.begin value probeOk endStatus = (st, false)) ∧
    (probeOk = true → st.begin value probeOk endStatus = (st.write8 value endStatus, true)) := by
  unfold PCF8574.begin
  cases probeOk <;> simp

theorem C2_begin_witness :
    (PCF8574.construct 0 0x20).begin 0xFF false 0 = (PCF8574.construct 0 0x20, false) :=
  (C2_begin_probe (PCF8574.construct 0 0x20) 0xFF false 0).1 rfl

/-- C3: when the transport request of `read8` does not return exactly
one byte (and likewise when no request can be made because the
interface selector is invalid), `read8` sets the error member to the
I2C-error code and returns the previously cached input byte, leaving
the input cache unchanged; on success it stores the received byte in
the cache and returns it. -/
theorem C3_read8_stale_policy (st : PCF8574) (reqCount busByte : Nat)
    (hc : reqCount < 256) (hb : busByte < 256) :
    (st._interfaceIndex < PCF8574_INTERFACE_NO_OF_INTERFACES → reqCount ≠ 1 →
      st.read8 reqCount busByte = ({ st with _error := PCF8574_I2C_ERROR }, st._dataIn)) ∧
    (st._interfaceIndex < PCF8574_INTERFACE_NO_OF_INTERFACES → reqCount = 1 →
      st.read8 reqCount busByte = ({ st with _dataIn := busByte }, busByte)) ∧
    (PCF8574_INTERFACE_NO_OF_INTERFACES ≤ st._interfaceIndex →
      st.read8 reqCount busByte = ({ st with _error := PCF8574_I2C_ERROR }, st._dataIn)) := by
  unfold PCF8574.read8
  refine ⟨?_, ?_, ?_⟩
  · intro h hn
    rw [if_pos h, if_pos (by rwa [Nat.mod_eq_of_lt hc])]
  · intro h h1
    subst h1
    rw [if_pos h, if_neg (by decide)]
    simp [Nat.mod_eq_of_lt hb]
  · intro h
    rw [if_neg (by omega)]

theorem C3_read8_witness :
    (PCF8574.construct 0 0x20).read8 0 0x55 =
      ({ PCF8574.construct 0 0x20 with _error := PCF8574_I2C_ERROR },
        (PCF8574.construct 0 0x20)._dataIn) :=
  (C3_read8_stale_policy (PCF8574.construct 0 0x20) 0 0x55 (by decide) (by decide)).1
    (by decide) (by decide)

/-! Bit-level helper lemmas for single-pin writes. -/

lemma testBit_or_pin_self (d p : Nat) : (d ||| (1 <<< p)).testBit p = true := by
  rw [Nat.one_shiftLeft, Nat.testBit_or, Nat.testBit_two_pow]
  simp

lemma testBit_or_pin_other {d p j : Nat} (h : j ≠ p) :
    (d ||| (1 <<< p)).testBit j = d.testBit j := by
  rw [Nat.one_shiftLeft, Nat.testBit_or, Nat.testBit_two_pow]
  simp [Ne.symm h]

lemma testBit_clear_pin_self (d p : Nat) (hp : p < 32) :
    (d &&& ((2 ^ 32 - 1) ^^^ (1 <<< p))).testBit p = false := by
  rw [Nat.testBit_and, Nat.one_shiftLeft, Nat.testBit_xor,
    Nat.testBit_two_pow_sub_one, Nat.testBit_two_pow]
  simp [hp]

lemma testBit_clear_pin_other {d p j : Nat} (hd : d < 2 ^ 32) (h : j ≠ p) :
    (d &&& ((2 ^ 32 - 1) ^^^ (1 <<< p))).testBit j = d.testBit j := by
  rcases Nat.lt_or_ge j 32 with hj | hj
  · rw [Nat.testBit_and, Nat.one_shiftLeft, Nat.testBit_xor,
      Nat.testBit_two_pow_sub_one, Nat.testBit_two_pow]
    simp [hj, Ne.symm h]
  · have hdj : d < 2 ^ j := lt_of_lt_of_le hd (Nat.pow_le_pow_right (by norm_num) hj)
    rw [Nat.testBit_lt_two_pow hdj,
      Nat.testBit_lt_two_pow (lt_of_le_of_lt Nat.and_le_left hdj)]

/-- C4: for every pin in 0..7 and every byte value, `write(pin, value)`
computes the new shadow by setting (value nonzero) or clearing
(value zero) bit `pin` in the current shadow and passes that byte to
`write8`; every shadow bit other than bit `pin` is unchanged by the
call. -/
theorem C4_write_pin (st : PCF8574) (pin value endStatus : Nat)
    (hp : pin ≤ 7) (hd : st._dataOut < 256) (hv : value < 256) :
    ((st.write pin value endStatus)._dataOut.testBit pin = decide (value ≠ 0)) ∧
    (∀ j : Nat, j ≠ pin →
      (st.write pin value endStatus)._dataOut.testBit j = st._dataOut.testBit j) ∧
    (st.write pin value endStatus =
      PCF8574.write8 { st with _dataOut := (st.write pin value endStatus)._dataOut }
        ((st.write pin value endStatus)._dataOut) endStatus) := by
  have hpin : pin % 256 = pin := Nat.mod_eq_of_lt (by omega)
  have hval : value % 256 = value := Nat.mod_eq_of_lt hv
  have hdlt : (if value = 0 then st._dataOut &&& ((2 ^ 32 - 1) ^^^ (1 <<< pin))
               else st._dataOut ||| (1 <<< pin)) < 256 := by
    split
    · exact lt_of_le_of_lt Nat.and_le_left hd
    · have h1 : st._dataOut < 2 ^ 8 := by omega
      have h2 : (1 <<< pin) < 2 ^ 8 := by
        rw [Nat.one_shiftLeft]
        exact lt_of_le_of_lt (Nat.pow_le_pow_right (by norm_num) hp) (by norm_num)
      have h3 := Nat.or_lt_two_pow h1 h2
      omega
  have hw : st.write pin value endStatus =
      PCF8574.write8 { st with _dataOut :=
          (if value = 0 then st._dataOut &&& ((2 ^ 32 - 1) ^^^ (1 <<< pin))
           else st._dataOut ||| (1 <<< pin)) }
        (if value = 0 then st._dataOut &&& ((2 ^ 32 - 1) ^^^ (1 <<< pin))
         else st._dataOut ||| (1 <<< pin)) endStatus := by
    unfold PCF8574.write
    rw [hpin, hval, if_neg (by omega), Nat.mod_eq_of_lt hdlt]
  have hDataOut : (st.write pin value endStatus)._dataOut =
      (if value = 0 then st._dataOut &&& ((2 ^ 32 - 1) ^^^ (1 <<< pin))
       else st._dataOut ||| (1 <<< pin)) := by
    rw [hw]
    exact PCF8574.write8_preassigned_dataOut st _ endStatus hdlt
  refine ⟨?_, ?_, ?_⟩
  · rw [hDataOut]
    by_cases h0 : value = 0
    · rw [if_pos h0, testBit_clear_pin_self st._dataOut pin (by omega)]
      simp [h0]
    · rw [if_neg h0, testBit_or_pin_self]
      simp [h0]
  · intro j hj
    rw [hDataOut]
    by_cases h0 : value = 0
    · rw [if_pos h0]
      exact testBit_clear_pin_other (lt_trans hd (by norm_num)) hj
    · rw [if_neg h0]
      exact testBit_or_pin_other hj
  · rw [hDataOut]
    exact hw

theorem C4_write_pin_witness :
    (((PCF8574.construct 0 0x20).write 3 0 0)._dataOut.testBit 3 =
      decide ((0 : Nat) ≠ 0)) ∧
    ((PCF8574.construct 0 0x20).write 3 0 0)._dataOut.testBit 5 =
      (PCF8574.construct 0 0x20)._dataOut.testBit 5 :=
  ⟨(C4_write_pin (PCF8574.construct 0 0x20) 3 0 0 (by decide) (by decide) (by decide)).1,
   (C4_write_pin (PCF8574.construct 0 0x20) 3 0 0 (by decide) (by decide) (by decide)).2.1
      5 (by decide)⟩

/-- C5: after `readButton8(mask)` completes, the output shadow
(`valueOut()`) equals its pre-call value, for every mask, every driver
state and every behaviour of the three bus transactions involved. -/
theorem C5_readButton8_shadow (st : PCF8574) (mask e1 reqCount busByte e2 : Nat)
    (hd : st._dataOut < 256) :
    ((st.readButton8 mask e1 reqCount busByte e2).1).valueOut = st.valueOut := by
  have hrb : (st.readButton8 mask e1 reqCount busByte e2).1 =
      (((st.write8 ((mask % 256) ||| st._dataOut) e1).read8
          reqCount busByte).1).write8 st._dataOut e2 := rfl
  have hidx : (((st.write8 ((mask % 256) ||| st._dataOut) e1).read8
      reqCount busByte).1)._interfaceIndex = st._interfaceIndex := by
    rw [PCF8574.read8_interfaceIndex, PCF8574.write8_interfaceIndex]
  unfold PCF8574.valueOut
  rw [hrb]
  by_cases h : st._interfaceIndex < PCF8574_INTERFACE_NO_OF_INTERFACES
  · rw [PCF8574.write8_dataOut_valid _ _ _ (by rw [hidx]; exact h),
      Nat.mod_eq_of_lt hd]
  · rw [PCF8574.write8_dataOut_invalid _ _ _ (by rw [hidx]; exact h),
      PCF8574.read8_dataOut, PCF8574.write8_dataOut_invalid _ _ _ h]

theorem C5_readButton8_witness :
    (((PCF8574.construct 0 0x20).readButton8 0x0F 1 1 0x55 2).1).valueOut =
      (PCF8574.construct 0 0x20).valueOut :=
  C5_readButton8_shadow (PCF8574.construct 0 0x20) 0x0F 1 1 0x55 2 (by decide)

/-- C6: for every pin greater than 7, `read(pin)` returns 0 and sets
the pin-error code, and `lastError()` reports that pin-error exactly
once: the first call after the failure returns the pin-error code and
a subsequent call returns OK. -/
theorem C6_read_out_of_range (st : PCF8574) (pin reqCount busByte : Nat)
    (h7 : 7 < pin) (h256 : pin < 256) :
    (st.read pin reqCount busByte).2 = 0 ∧
    ((st.read pin reqCount busByte).1)._error = PCF8574_PIN_ERROR ∧
    (((st.read pin reqCount busByte).1).lastError).2 = PCF8574_PIN_ERROR ∧
    (((((st.read pin reqCount busByte).1).lastError).1).lastError).2 = PCF8574_OK := by
  have hp : pin % 256 = pin := Nat.mod_eq_of_lt h256
  have hr : st.read pin reqCount busByte =
      ({ st with _error := PCF8574_PIN_ERROR }, 0) := by
    unfold PCF8574.read
    simp only [hp]
    rw [if_pos h7]
  rw [hr]
  exact ⟨rfl, rfl, rfl, rfl⟩

theorem C6_read_out_of_range_witness :
    ((PCF8574.construct 0 0x20).read 8 1 0x55).2 = 0 ∧
    (((PCF8574.construct 0 0x20).read 8 1 0x55).1)._error = PCF8574_PIN_ERROR ∧
    ((((PCF8574.construct 0 0x20).read 8 1 0x55).1).lastError).2 = PCF8574_PIN_ERROR ∧
    ((((((PCF8574.construct 0 0x20).read 8 1 0x55).1).lastError).1).lastError).2 =
      PCF8574_OK :=
  C6_read_out_of_range (PCF8574.construct 0 0x20) 8 1 0x55 (by decide) (by decide)

/-! Helper lemmas for the rotate and reverse algorithms. -/

lemma reverseByte_lt (x : Nat) : reverseByte x < 256 :=
  Nat.mod_lt _ (by norm_num)

set_option maxRecDepth 10000 in
set_option maxHeartbeats 1000000 in
lemma reverseByte_involutive :
    ∀ d : Fin 256, reverseByte (reverseByte d.val) = d.val := by decide

lemma rotr8_lt (d r : Nat) : rotr8 d r < 256 :=
  Nat.mod_lt _ (by norm_num)

set_option maxRecDepth 100000 in
set_option maxHeartbeats 4000000 in
lemma rotr8_inverse :
    ∀ d : Fin 256, ∀ r : Fin 8, 0 < r.val →
      rotr8 (rotr8 d.val r.val) (8 - r.val) = d.val := by decide

lemma and7_eq_mod8 (n : Nat) : n &&& 7 = n % 8 := by
  rw [show (7 : Nat) = 2 ^ 3 - 1 by norm_num, Nat.and_pow_two_sub_one_eq_mod]

/-- C7: applying `reverse()` twice returns the shadow to its original
value, for all 256 possible shadow byte values (and every driver
state and transport outcome). -/
theorem C7_reverse_involution (st : PCF8574) (e1 e2 : Nat)
    (hd : st._dataOut < 256) :
    ((st.reverse e1).reverse e2)._dataOut = st._dataOut := by
  by_cases h : st._interfaceIndex < PCF8574_INTERFACE_NO_OF_INTERFACES
  · have h1 : (st.reverse e1)._dataOut = reverseByte st._dataOut := by
      unfold PCF8574.reverse
      rw [PCF8574.write8_dataOut_valid _ _ _ h, Nat.mod_eq_of_lt (reverseByte_lt _)]
    have h2 : (st.reverse e1)._interfaceIndex = st._interfaceIndex :=
      PCF8574.write8_interfaceIndex _ _ _
    have h3 : ((st.reverse e1).reverse e2)._dataOut =
        reverseByte (st.reverse e1)._dataOut := by
      unfold PCF8574.reverse
      rw [PCF8574.write8_dataOut_valid _ _ _
          (by rw [PCF8574.write8_interfaceIndex]; exact h),
        Nat.mod_eq_of_lt (reverseByte_lt _)]
    rw [h3, h1]
    exact reverseByte_involutive ⟨st._dataOut, hd⟩
  · have h1 : (st.reverse e1)._dataOut = st._dataOut := by
      unfold PCF8574.reverse
      exact PCF8574.write8_dataOut_invalid _ _ _ h
    have h2 : (st.reverse e1)._interfaceIndex = st._interfaceIndex :=
      PCF8574.write8_interfaceIndex _ _ _
    have h3 : ((st.reverse e1).reverse e2)._dataOut = (st.reverse e1)._dataOut := by
      unfold PCF8574.reverse
      exact PCF8574.write8_dataOut_invalid _ _ _
        (by rw [PCF8574.write8_interfaceIndex]; exact h)
    rw [h3, h1]

theorem C7_reverse_witness :
    (((PCF8574.construct 0 0x20).reverse 0).reverse 0)._dataOut =
      (PCF8574.construct 0 0x20)._dataOut :=
  C7_reverse_involution (PCF8574.construct 0 0x20) 0 0 (by decide)

lemma PCF8574.rotateRight_eq_of_zero (st : PCF8574) (n e : Nat)
    (h : n % 256 % 8 = 0) : st.rotateRight n e = st := by
  unfold PCF8574.rotateRight
  exact if_pos h

lemma PCF8574.rotateRight_eq_of_pos (st : PCF8574) (n e : Nat)
    (h : ¬ n % 256 % 8 = 0) :
    st.rotateRight n e =
      PCF8574.write8 { st with _dataOut := rotr8 st._dataOut (n % 256 &&& 7) }
        (rotr8 st._dataOut (n % 256 &&& 7)) e := by
  unfold PCF8574.rotateRight
  exact if_neg h

lemma PCF8574.rotateLeft_eq (st : PCF8574) (m e : Nat) :
    st.rotateLeft m e = st.rotateRight (8 - m % 8) e := by
  unfold PCF8574.rotateLeft
  rw [and7_eq_mod8, Nat.mod_mod_of_dvd m (by norm_num)]

/-- C8: for every n in 0..7 and every initial shadow value,
`rotateRight(n)` followed by `rotateLeft(n)` leaves the shadow equal to
its initial value; and for every n, `rotateLeft(n)` behaves as
`rotateRight(8 - (n mod 8))`. -/
theorem C8_rotate_roundtrip (st : PCF8574) (n e1 e2 : Nat)
    (hd : st._dataOut < 256) (hn : n ≤ 7) :
    ((st.rotateRight n e1).rotateLeft n e2)._dataOut = st._dataOut ∧
    (∀ (m e : Nat), st.rotateLeft m e = st.rotateRight (8 - m % 8) e) := by
  refine ⟨?_, fun m e => PCF8574.rotateLeft_eq st m e⟩
  rcases Nat.eq_zero_or_pos n with h0 | hpos
  · subst h0
    rw [PCF8574.rotateRight_eq_of_zero st 0 e1 (by decide),
      PCF8574.rotateLeft_eq, PCF8574.rotateRight_eq_of_zero st _ e2 (by decide)]
  · have hn8 : n % 8 = n := Nat.mod_eq_of_lt (by omega)
    have hn256 : n % 256 = n := Nat.mod_eq_of_lt (by omega)
    have hand : n % 256 &&& 7 = n := by rw [hn256, and7_eq_mod8, hn8]
    have h8n : (8 - n) % 256 = 8 - n := Nat.mod_eq_of_lt (by omega)
    have h8and : (8 - n) % 256 &&& 7 = 8 - n := by
      rw [h8n, and7_eq_mod8]
      exact Nat.mod_eq_of_lt (by omega)
    have hst1 : st.rotateRight n e1 =
        PCF8574.write8 { st with _dataOut := rotr8 st._dataOut n }
          (rotr8 st._dataOut n) e1 := by
      rw [PCF8574.rotateRight_eq_of_pos st n e1 (by omega), hand]
    have hst1out : (st.rotateRight n e1)._dataOut = rotr8 st._dataOut n := by
      rw [hst1]
      exact PCF8574.write8_preassigned_dataOut st _ e1 (rotr8_lt _ _)
    rw [PCF8574.rotateLeft_eq, hn8,
      PCF8574.rotateRight_eq_of_pos _ (8 - n) e2 (by omega), h8and, hst1out]
    have := PCF8574.write8_preassigned_dataOut (st.rotateRight n e1)
      (rotr8 (rotr8 st._dataOut n) (8 - n)) e2 (rotr8_lt _ _)
    rw [this]
    exact rotr8_inverse ⟨st._dataOut, hd⟩ ⟨n, by omega⟩ hpos

theorem C8_rotate_witness :
    ((((PCF8574.construct 0 0x20).toggleMask 0x0F 0).rotateRight 3 0).rotateLeft
        3 0)._dataOut = (((PCF8574.construct 0 0x20).toggleMask 0x0F 0))._dataOut :=
  (C8_rotate_roundtrip ((PCF8574.construct 0 0x20).toggleMask 0x0F 0) 3 0 0
    (by decide) (by decide)).1

lemma PCF8574.shiftLeft_stop (st : PCF8574) (n e : Nat)
    (h : n % 256 = 0 ∨ st._dataOut = 0) : st.shiftLeft n e = st := by
  unfold PCF8574.shiftLeft
  exact if_pos h

lemma PCF8574.shiftRight_stop (st : PCF8574) (n e : Nat)
    (h : n % 256 = 0 ∨ st._dataOut = 0) : st.shiftRight n e = st := by
  unfold PCF8574.shiftRight
  exact if_pos h

lemma PCF8574.shiftLeft_big (st : PCF8574) (n e : Nat)
    (h8 : 8 ≤ n) (h256 : n < 256) (hd0 : st._dataOut ≠ 0) :
    st.shiftLeft n e = PCF8574.write8 { st with _dataOut := 0 } 0 e := by
  unfold PCF8574.shiftLeft
  simp only [Nat.mod_eq_of_lt h256]
  rw [if_neg (by simp [hd0]; omega), if_pos (by omega : n > 7)]
  simp

lemma PCF8574.shiftRight_big (st : PCF8574) (n e : Nat)
    (h8 : 8 ≤ n) (h256 : n < 256) (hd0 : st._dataOut ≠ 0) :
    st.shiftRight n e = PCF8574.write8 { st with _dataOut := 0 } 0 e := by
  unfold PCF8574.shiftRight
  simp only [Nat.mod_eq_of_lt h256]
  rw [if_neg (by simp [hd0]; omega), if_pos (by omega : n > 7)]
  simp

/-- C9: for every shift count n >= 8 the shadow equals 0 after
`shiftLeft(n)` and after `shiftRight(n)` (the n >= 8 case clears all
bits), and whenever the shadow is already 0 both shifts are complete
no-ops. -/
theorem C9_shift_to_zero (st : PCF8574) (n e : Nat) (hn : n < 256) :
    (8 ≤ n → (st.shiftLeft n e)._dataOut = 0 ∧ (st.shiftRight n e)._dataOut = 0) ∧
    (st._dataOut = 0 → st.shiftLeft n e = st ∧ st.shiftRight n e = st) := by
  constructor
  · intro h8
    constructor
    · by_cases hd0 : st._dataOut = 0
      · rw [PCF8574.shiftLeft_stop st n e (Or.inr hd0)]
        exact hd0
      · rw [PCF8574.shiftLeft_big st n e h8 hn hd0]
        exact PCF8574.write8_preassigned_dataOut st 0 e (by norm_num)
    · by_cases hd0 : st._dataOut = 0
      · rw [PCF8574.shiftRight_stop st n e (Or.inr hd0)]
        exact hd0
      · rw [PCF8574.shiftRight_big st n e h8 hn hd0]
        exact PCF8574.write8_preassigned_dataOut st 0 e (by norm_num)
  · intro hd0
    exact ⟨PCF8574.shiftLeft_stop st n e (Or.inr hd0),
      PCF8574.shiftRight_stop st n e (Or.inr hd0)⟩

theorem C9_shift_witness :
    ((PCF8574.construct 0 0x20).shiftLeft 9 0)._dataOut = 0 ∧
    ((PCF8574.construct 0 0x20).shiftRight 9 0)._dataOut = 0 :=
  (C9_shift_to_zero (PCF8574.construct 0 0x20) 9 0 (by decide)).1 (by decide)

/-! Button-mask preservation lemmas, one per public operation. -/

lemma PCF8574.read_buttonMask (st : PCF8574) (pin c b : Nat) :
    ((st.read pin c b).1)._buttonMask = st._buttonMask := by
  simp only [PCF8574.read]
  split
  · rfl
  · exact PCF8574.read8_buttonMask st c b

lemma PCF8574.write_buttonMask (st : PCF8574) (pin v e : Nat) :
    (st.write pin v e)._buttonMask = st._buttonMask := by
  simp only [PCF8574.write]
  split
  · rfl
  · rw [PCF8574.write8_buttonMask]

lemma PCF8574.toggleMask_buttonMask (st : PCF8574) (m e : Nat) :
    (st.toggleMask m e)._buttonMask = st._buttonMask := by
  unfold PCF8574.toggleMask
  rw [PCF8574.write8_buttonMask]

lemma PCF8574.toggle_buttonMask (st : PCF8574) (pin e : Nat) :
    (st.toggle pin e)._buttonMask = st._buttonMask := by
  simp only [PCF8574.toggle]
  split
  · rfl
  · exact PCF8574.toggleMask_buttonMask st _ e

lemma PCF8574.shiftRight_buttonMask (st : PCF8574) (n e : Nat) :
    (st.shiftRight n e)._buttonMask = st._buttonMask := by
  simp only [PCF8574.shiftRight]
  split
  · rfl
  · rw [PCF8574.write8_buttonMask]

lemma PCF8574.shiftLeft_buttonMask (st : PCF8574) (n e : Nat) :
    (st.shiftLeft n e)._buttonMask = st._buttonMask := by
  simp only [PCF8574.shiftLeft]
  split
  · rfl
  · rw [PCF8574.write8_buttonMask]

lemma PCF8574.rotateRight_buttonMask (st : PCF8574) (n e : Nat) :
    (st.rotateRight n e)._buttonMask = st._buttonMask := by
  simp only [PCF8574.rotateRight]
  split
  · rfl
  · rw [PCF8574.write8_buttonMask]

lemma PCF8574.rotateLeft_buttonMask (st : PCF8574) (n e : Nat) :
    (st.rotateLeft n e)._buttonMask = st._buttonMask := by
  unfold PCF8574.rotateLeft
  exact PCF8574.rotateRight_buttonMask st _ e

lemma PCF8574.reverse_buttonMask (st : PCF8574) (e : Nat) :
    (st.reverse e)._buttonMask = st._buttonMask := by
  unfold PCF8574.reverse
  rw [PCF8574.write8_buttonMask]

lemma PCF8574.readButton8_buttonMask (st : PCF8574) (m e1 c b e2 : Nat) :
    ((st.readButton8 m e1 c b e2).1)._buttonMask = st._buttonMask := by
  have hrb : (st.readButton8 m e1 c b e2).1 =
      (((st.write8 ((m % 256) ||| st._dataOut) e1).read8 c b).1).write8
        st._dataOut e2 := rfl
  rw [hrb, PCF8574.write8_buttonMask, PCF8574.read8_buttonMask,
    PCF8574.write8_buttonMask]

lemma PCF8574.readButton8Default_buttonMask (st : PCF8574) (e1 c b e2 : Nat) :
    ((st.readButton8Default e1 c b e2).1)._buttonMask = st._buttonMask := by
  unfold PCF8574.readButton8Default
  exact PCF8574.readButton8_buttonMask st _ e1 c b e2

lemma PCF8574.readButton_buttonMask (st : PCF8574) (pin e1 c b e2 : Nat) :
    ((st.readButton pin e1 c b e2).1)._buttonMask = st._buttonMask := by
  simp only [PCF8574.readButton]
  split
  · rfl
  · show ((((st.write (pin % 256) 1 e1).read (pin % 256) c b).1).write8
        st._dataOut e2)._buttonMask = st._buttonMask
    rw [PCF8574.write8_buttonMask, PCF8574.read_buttonMask,
      PCF8574.write_buttonMask]

lemma PCF8574.beginVoid_buttonMask (st : PCF8574) (v e : Nat) :
    (st.beginVoid v e)._buttonMask = st._buttonMask := by
  unfold PCF8574.beginVoid
  split
  · rw [PCF8574.write8_buttonMask]
  · rfl

lemma PCF8574.begin_buttonMask (st : PCF8574) (v : Nat) (ok : Bool) (e : Nat) :
    ((st.begin v ok e).1)._buttonMask = st._buttonMask := by
  unfold PCF8574.begin
  cases ok
  · rfl
  · simp [PCF8574.write8_buttonMask]

lemma PCF8574.select_buttonMask (st : PCF8574) (pin e : Nat) :
    (st.select pin e)._buttonMask = st._buttonMask := by
  unfold PCF8574.select
  rw [PCF8574.write8_buttonMask]

lemma PCF8574.selectN_buttonMask (st : PCF8574) (pin e : Nat) :
    (st.selectN pin e)._buttonMask = st._buttonMask := by
  unfold PCF8574.selectN
  rw [PCF8574.write8_buttonMask]

/-- C10: every operation of the public interface other than
`setButtonMask` — including both `readButton8` overloads and
`readButton`, which read the mask — leaves the `_buttonMask` member
unchanged, for every driver state and all transport outcomes; only
`setButtonMask(mask)` modifies it, setting it to its argument. -/
theorem C10_buttonMask_invariant (st : PCF8574)
    (pin v mask n e e1 e2 c b addr : Nat) (ok : Bool) (hm : mask < 256) :
    (st.write8 v e)._buttonMask = st._buttonMask ∧
    ((st.read8 c b).1)._buttonMask = st._buttonMask ∧
    ((st.read pin c b).1)._buttonMask = st._buttonMask ∧
    (st.write pin v e)._buttonMask = st._buttonMask ∧
    (st.toggle pin e)._buttonMask = st._buttonMask ∧
    (st.toggleMask mask e)._buttonMask = st._buttonMask ∧
    (st.shiftRight n e)._buttonMask = st._buttonMask ∧
    (st.shiftLeft n e)._buttonMask = st._buttonMask ∧
    (st.rotateRight n e)._buttonMask = st._buttonMask ∧
    (st.rotateLeft n e)._buttonMask = st._buttonMask ∧
    (st.reverse e)._buttonMask = st._buttonMask ∧
    ((st.readButton8 mask e1 c b e2).1)._buttonMask = st._buttonMask ∧
    ((st.readButton8Default e1 c b e2).1)._buttonMask = st._buttonMask ∧
    ((st.readButton pin e1 c b e2).1)._buttonMask = st._buttonMask ∧
    ((st.lastError).1)._buttonMask = st._buttonMask ∧
    (st.selectNone e)._buttonMask = st._buttonMask ∧
    (st.selectAll e)._buttonMask = st._buttonMask ∧
    (st.select pin e)._buttonMask = st._buttonMask ∧
    (st.selectN pin e)._buttonMask = st._buttonMask ∧
    ((st.begin v ok e).1)._buttonMask = st._buttonMask ∧
    (st.beginVoid v e)._buttonMask = st._buttonMask ∧
    ((st.isConnected ok).1)._buttonMask = st._buttonMask ∧
    ((st.setAddress addr ok).1)._buttonMask = st._buttonMask ∧
    (st.setButtonMask mask)._buttonMask = mask :=
  ⟨PCF8574.write8_buttonMask st v e,
   PCF8574.read8_buttonMask st c b,
   PCF8574.read_buttonMask st pin c b,
   PCF8574.write_buttonMask st pin v e,
   PCF8574.toggle_buttonMask st pin e,
   PCF8574.toggleMask_buttonMask st mask e,
   PCF8574.shiftRight_buttonMask st n e,
   PCF8574.shiftLeft_buttonMask st n e,
   PCF8574.rotateRight_buttonMask st n e,
   PCF8574.rotateLeft_buttonMask st n e,
   PCF8574.reverse_buttonMask st e,
   PCF8574.readButton8_buttonMask st mask e1 c b e2,
   PCF8574.readButton8Default_buttonMask st e1 c b e2,
   PCF8574.readButton_buttonMask st pin e1 c b e2,
   rfl,
   PCF8574.write8_buttonMask st 0x00 e,
   PCF8574.write8_buttonMask st 0xFF e,
   PCF8574.select_buttonMask st pin e,
   PCF8574.selectN_buttonMask st pin e,
   PCF8574.begin_buttonMask st v ok e,
   PCF8574.beginVoid_buttonMask st v e,
   rfl,
   rfl,
   Nat.mod_eq_of_lt hm⟩

theorem C10_buttonMask_witness :
    (((PCF8574.construct 0 0x20).readButton8 0x0F 1 1 0x55 2).1)._buttonMask =
      (PCF8574.construct 0 0x20)._buttonMask ∧
    ((PCF8574.construct 0 0x20).setButtonMask 0x0F)._buttonMask = 0x0F :=
  ⟨(C10_buttonMask_invariant (PCF8574.construct 0 0x20) 3 1 0x0F 2 0 1 2 1 0x55
      0x21 true (by decide)).2.2.2.2.2.2.2.2.2.2.2.1,
   (C10_buttonMask_invariant (PCF8574.construct 0 0x20) 3 1 0x0F 2 0 1 2 1 0x55
      0x21 true (by decide)).2.2.2.2.2.2.2.2.2.2.2.2.2.2.2.2.2.2.2.2.2.2.2⟩
